import Mathlib

/-!
Shallow embedding of `src/core/field_colour.js` (Blockly.FieldColour of
scratch-blocks) together with the small pieces of its host environment that
the field calls into: the goog.color conversion helpers, the goog.events
listener registry, the slider configuration setters, and the parts of the
block / base-field contract that the spec documents.

JS numbers are modelled as rationals (ℚ) where fractional arithmetic occurs
and as Nat / Int where the source works with integers.  Fallible host calls
that throw in JS (hex parsing of malformed colours, rgbToHex on out-of-range
components, opening the editor on a detached field) are modelled with
Option.
-/

namespace ScratchBlocks

/-! ### goog.color conversion helpers (closure library) -/

/-- Value of one hexadecimal digit, case-insensitive, as in
`parseInt(s, 16)` on a single digit.  `none` on a non-hex character. -/
def hexDigitVal (c : Char) : Option Nat :=
  if '0' ≤ c ∧ c ≤ '9' then some (c.toNat - '0'.toNat)
  else if 'a' ≤ c ∧ c ≤ 'f' then some (c.toNat - 'a'.toNat + 10)
  else if 'A' ≤ c ∧ c ≤ 'F' then some (c.toNat - 'A'.toNat + 10)
  else none

/-- Embedding of `goog.color.hexToRgb` composed with `goog.color.normalizeHex`:
accepts `#rgb` or `#rrggbb` (case-insensitive; the 3-digit form expands each
digit), returns the three 0–255 channels.  `none` models the `Error` thrown
by `normalizeHex` on anything else. -/
def hexToRgb (s : String) : Option (Nat × Nat × Nat) :=
  match s.data with
  | ['#', r1, r2, g1, g2, b1, b2] => do
    let hr1 ← hexDigitVal r1
    let hr2 ← hexDigitVal r2
    let hg1 ← hexDigitVal g1
    let hg2 ← hexDigitVal g2
    let hb1 ← hexDigitVal b1
    let hb2 ← hexDigitVal b2
    some (16 * hr1 + hr2, 16 * hg1 + hg2, 16 * hb1 + hb2)
  | ['#', r, g, b] => do
    let hr ← hexDigitVal r
    let hg ← hexDigitVal g
    let hb ← hexDigitVal b
    some (16 * hr + hr, 16 * hg + hg, 16 * hb + hb)
  | _ => none

/-- HSV triple as produced by `goog.color.rgbToHsv`: hue in 0–360,
saturation in 0–1, brightness (value) in 0–255. -/
structure Hsv where
  h : ℚ
  s : ℚ
  v : ℚ
deriving DecidableEq

/-- Embedding of `goog.color.rgbToHsv`. -/
def rgbToHsv (red green blue : Nat) : Hsv :=
  let mx := max (max red green) blue
  let mn := min (min red green) blue
  if mn = mx then ⟨0, 0, (mx : ℚ)⟩
  else
    let delta : ℚ := (mx : ℚ) - (mn : ℚ)
    let saturation : ℚ := delta / (mx : ℚ)
    let hue0 : ℚ :=
      if red = mx then ((green : ℚ) - (blue : ℚ)) / delta
      else if green = mx then 2 + ((blue : ℚ) - (red : ℚ)) / delta
      else 4 + ((red : ℚ) - (green : ℚ)) / delta
    let hue1 : ℚ := hue0 * 60
    let hue2 : ℚ := if hue1 < 0 then hue1 + 360 else hue1
    let hue3 : ℚ := if hue2 > 360 then hue2 - 360 else hue2
    ⟨hue3, saturation, (mx : ℚ)⟩

/-- Embedding of `goog.color.hexToHsv`; `none` on a malformed colour string
(where the JS throws). -/
def hexToHsv (s : String) : Option Hsv :=
  (hexToRgb s).map fun rgb => rgbToHsv rgb.1 rgb.2.1 rgb.2.2

/-- Embedding of `goog.color.hsvToRgb`: hue 0–360, saturation 0–1,
brightness 0–255; floors each resulting channel. -/
def hsvToRgb (h s brightness : ℚ) : Int × Int × Int :=
  if s = 0 then (brightness.floor, brightness.floor, brightness.floor)
  else
    let sextant : Int := (h / 60).floor
    let remainder : ℚ := h / 60 - (sextant : ℚ)
    let val1 : ℚ := brightness * (1 - s)
    let val2 : ℚ := brightness * (1 - s * remainder)
    let val3 : ℚ := brightness * (1 - s * (1 - remainder))
    let rgb : ℚ × ℚ × ℚ :=
      if sextant = 1 then (val2, brightness, val1)
      else if sextant = 2 then (val1, brightness, val3)
      else if sextant = 3 then (val1, val2, brightness)
      else if sextant = 4 then (val3, val1, brightness)
      else if sextant = 5 then (brightness, val1, val2)
      else if sextant = 6 ∨ sextant = 0 then (brightness, val3, val1)
      else (0, 0, 0)
    (rgb.1.floor, rgb.2.1.floor, rgb.2.2.floor)

/-- Lowercase hex rendering of one channel, two digits, as
`goog.color.prependZeroIfNecessaryHelper(n.toString(16))`. -/
def toHexByteString (n : Nat) : String :=
  let s := String.mk (Nat.toDigits 16 n)
  if s.length = 1 then "0" ++ s else s

/-- Embedding of `goog.color.rgbToHex`: `none` models the `Error` the JS
throws when a channel is outside 0–255. -/
def rgbToHex (r g b : Int) : Option String :=
  if 0 ≤ r ∧ r ≤ 255 ∧ 0 ≤ g ∧ g ≤ 255 ∧ 0 ≤ b ∧ b ≤ 255 then
    some ("#" ++ toHexByteString r.toNat ++ toHexByteString g.toNat ++
      toHexByteString b.toNat)
  else none

/-- Embedding of `goog.color.hsvToHex`. -/
def hsvToHex (h s v : ℚ) : Option String :=
  let rgb := hsvToRgb h s v
  rgbToHex rgb.1 rgb.2.1 rgb.2.2

/-! ### Host block and event model -/

/-- Modelled from the spec: the host block exposes three colour slots
(primary, secondary, tertiary) plus `getColourTertiary` and `setColour`;
its parent block carries a category used for panel theming.  `parentCategory`
stands for `parentBlock_.getCategory()`: `none` when `parentBlock_` is null. -/
structure Block where
  id : Nat
  colourPrimary : String
  colourSecondary : String
  colourTertiary : String
  parentCategory : Option String
deriving DecidableEq

/-- Modelled from the spec: `Block.setColour` stores its three arguments into
the primary, secondary and tertiary colour slots. -/
def Block.setColour (b : Block) (primary secondary tertiary : String) : Block :=
  { b with colourPrimary := primary, colourSecondary := secondary,
           colourTertiary := tertiary }

/-- Modelled from the spec: accessor for the tertiary colour slot. -/
def Block.getColourTertiary (b : Block) : String :=
  b.colourTertiary

/-- Embedding of `Blockly.Events.BlockChange(block, 'field', name, old, new)`
as fired by `setValue` (line 104): owner block id, element 'field', field
name, old colour, new colour. -/
inductive BlocklyEvent where
  | blockChange (blockId : Nat) (element : String) (name : String)
      (oldValue : String) (newValue : String)
deriving DecidableEq

/-- Result of a user validator call in JS: `null`, `undefined`, or a
replacement colour string. -/
inductive ValidatorResult where
  | nullResult
  | undefinedResult
  | colourResult (c : String)

/-- The three numeric readouts refreshed by `setValue` (lines 137–141); JS
stores `Math.floor(...)` integers (rendered via `toFixed(0)`). -/
structure Readouts where
  hue : Int
  saturation : Int
  brightness : Int
deriving DecidableEq

/-- State of one `Blockly.FieldColour` instance.
`colour` is `this.colour_`; `name` is `this.name`; `sourceBlock` is
`this.sourceBlock_`; `validator` is the user validator installed through the
constructor; `editorOpen` models `this.hueSlider_` being non-null (set by
`showEditor_`, never cleared — `widgetDispose_` does not touch it);
`readouts` are the three readout elements.  The slider background gradient
strings built by `makeHueGradient` are write-only CSS style state with no
observer in this development and are not carried in the state. -/
structure FieldColour where
  colour : String
  name : String
  sourceBlock : Option Block
  validator : Option (String → ValidatorResult)
  editorOpen : Bool
  readouts : Readouts

/-- Embedding of `Blockly.FieldColour.prototype.getValue` (lines 93–95):
returns `this.colour_` unconditionally. -/
def FieldColour.getValue (f : FieldColour) : String :=
  f.colour

/-- Modelled from the spec: `Blockly.Field.prototype.callValidator` lives in
the base field class (not under src).  Per the spec validator contract, the
installed validator maps a candidate to `null` (reject), `undefined` (accept
the candidate unchanged) or a replacement string; with no validator the
candidate passes through.  `none` is the JS `null` return. -/
def FieldColour.callValidator (f : FieldColour) (text : String) : Option String :=
  match f.validator with
  | none => some text
  | some v =>
    match v text with
    | ValidatorResult.nullResult => none
    | ValidatorResult.undefinedResult => some text
    | ValidatorResult.colourResult c => some c

/-- Readout refresh from `setValue` (lines 137–141): hue shows
`Math.floor(100 * hsv[0] / 360)`, saturation `Math.floor(100 * hsv[1])`,
brightness `Math.floor(100 * hsv[2] / 255)`.  When `goog.color.hexToHsv`
cannot parse the colour the JS throws at line 137, after `this.colour_` was
already assigned at line 107; the skip branch models that the readouts are
left untouched in that case. -/
def refreshReadouts (f : FieldColour) (colour : String) : FieldColour :=
  match hexToHsv colour with
  | some hsv =>
    { f with readouts :=
        ⟨(100 * hsv.h / 360).floor, (100 * hsv.s).floor,
         (100 * hsv.v / 255).floor⟩ }
  | none => f

/-- Embedding of `Blockly.FieldColour.prototype.setValue` (lines 101–143).
`eventsEnabled` stands for the global `Blockly.Events.isEnabled()`.  Returns
the updated field and the list of events passed to `Blockly.Events.fire`.
Order follows the source: fire decision on the old colour, store the colour,
push `setColour(colour, colour, getColourTertiary())` to the source block,
then refresh sliders/readouts when the editor elements exist. -/
def FieldColour.setValue (eventsEnabled : Bool) (f : FieldColour)
    (colour : String) : FieldColour × List BlocklyEvent :=
  let events : List BlocklyEvent :=
    match f.sourceBlock with
    | some b =>
      if eventsEnabled = true ∧ f.colour ≠ colour then
        [BlocklyEvent.blockChange b.id "field" f.name f.colour colour]
      else []
    | none => []
  let f1 : FieldColour := { f with colour := colour }
  let f2 : FieldColour :=
    match f1.sourceBlock with
    | some b =>
      let b2 := b.setColour colour colour b.getColourTertiary
      { f1 with sourceBlock := some b2 }
    | none => f1
  let f3 : FieldColour := if f2.editorOpen then refreshReadouts f2 colour else f2
  (f3, events)

/-- Embedding of `Blockly.FieldColour.prototype.getText` (lines 149–157):
the regex `^#(.)\1(.)\2(.)\3$` compacts a 7-character value whose three
channel characters are doubled; the regex dot matches any character except a
line terminator. -/
def regexDotMatches (c : Char) : Prop :=
  c ≠ '\n' ∧ c ≠ '\r' ∧ c ≠ Char.ofNat 8232 ∧ c ≠ Char.ofNat 8233

instance (c : Char) : Decidable (regexDotMatches c) := by
  unfold regexDotMatches
  infer_instance

/-- Embedding of `Blockly.FieldColour.prototype.getText`. -/
def FieldColour.getText (f : FieldColour) : String :=
  match f.colour.data with
  | [h0, a, a2, b, b2, c, c2] =>
    if h0 = '#' ∧ a = a2 ∧ b = b2 ∧ c = c2 ∧ regexDotMatches a ∧
        regexDotMatches b ∧ regexDotMatches c then
      String.mk ['#', a, b, c]
    else f.colour
  | _ => f.colour

/-- Embedding of `Blockly.FieldColour.prototype.init` (lines 84–87): the
base-class init binds the field to the block (modelled from the spec:
init binds the field to a host block), then `setValue(this.getValue())`. -/
def FieldColour.init (eventsEnabled : Bool) (f : FieldColour) (block : Block) :
    FieldColour × List BlocklyEvent :=
  let f0 : FieldColour := { f with sourceBlock := some block }
  f0.setValue eventsEnabled f0.getValue

/-- Embedding of `Blockly.FieldColour.prototype.activateEyedropperInternal_`
(lines 163–168): the eyedropper capability hands a picked value to a
completion callback that calls `this.setValue(value)` directly. -/
def activateEyedropperInternal (eventsEnabled : Bool) (f : FieldColour)
    (value : String) : FieldColour × List BlocklyEvent :=
  f.setValue eventsEnabled value

/-! ### Slider change handlers (showEditor_, lines 236–251, 255–270, 288–303)

Each handler reads the slider value, recomputes the HSV of the current
colour with the changed channel substituted, converts back to hex, consults
the validator when the field has a source block, and commits through
`setValue` unless the validator returned null.  `none` from `hexToHsv` or
`hsvToHex` models the exception the goog helpers throw, which aborts the
handler before any `setValue`. -/

/-- Hue slider change handler (lines 236–251). -/
def hueChangeHandler (eventsEnabled : Bool) (f : FieldColour) (hue : ℚ) :
    FieldColour × List BlocklyEvent :=
  match hexToHsv f.getValue with
  | none => (f, [])
  | some hsv =>
    match hsvToHex hue hsv.s hsv.v with
    | none => (f, [])
    | some colour =>
      match f.sourceBlock with
      | some _ =>
        match f.callValidator colour with
        | none => (f, [])
        | some c => f.setValue eventsEnabled c
      | none => f.setValue eventsEnabled colour

/-- Saturation slider change handler (lines 255–270). -/
def saturationChangeHandler (eventsEnabled : Bool) (f : FieldColour)
    (saturation : ℚ) : FieldColour × List BlocklyEvent :=
  match hexToHsv f.getValue with
  | none => (f, [])
  | some hsv =>
    match hsvToHex hsv.h saturation hsv.v with
    | none => (f, [])
    | some colour =>
      match f.sourceBlock with
      | some _ =>
        match f.callValidator colour with
        | none => (f, [])
        | some c => f.setValue eventsEnabled c
      | none => f.setValue eventsEnabled colour

/-- Brightness slider change handler (lines 288–303). -/
def brightnessChangeHandler (eventsEnabled : Bool) (f : FieldColour)
    (brightness : ℚ) : FieldColour × List BlocklyEvent :=
  match hexToHsv f.getValue with
  | none => (f, [])
  | some hsv =>
    match hsvToHex hsv.h hsv.s brightness with
    | none => (f, [])
    | some colour =>
      match f.sourceBlock with
      | some _ =>
        match f.callValidator colour with
        | none => (f, [])
        | some c => f.setValue eventsEnabled c
      | none => f.setValue eventsEnabled colour

/-! ### goog.ui.Slider configuration -/

/-- Configuration of a `goog.ui.Slider` as far as `showEditor_` sets it:
the unit increment (SliderBase default 1), the range model step (default 1),
and the minimum/maximum (defaults 0 and 100). -/
structure SliderConfig where
  unitIncrement : ℚ
  step : ℚ
  minimum : ℚ
  maximum : ℚ
deriving DecidableEq

/-- Embedding of `new goog.ui.Slider()` with closure defaults. -/
def Slider.new : SliderConfig :=
  ⟨1, 1, 0, 100⟩

/-- Embedding of `goog.ui.SliderBase.prototype.setUnitIncrement`. -/
def SliderConfig.setUnitIncrement (s : SliderConfig) (q : ℚ) : SliderConfig :=
  { s with unitIncrement := q }

/-- Embedding of `goog.ui.SliderBase.prototype.setStep`. -/
def SliderConfig.setStep (s : SliderConfig) (q : ℚ) : SliderConfig :=
  { s with step := q }

/-- Embedding of `goog.ui.SliderBase.prototype.setMinimum`. -/
def SliderConfig.setMinimum (s : SliderConfig) (q : ℚ) : SliderConfig :=
  { s with minimum := q }

/-- Embedding of `goog.ui.SliderBase.prototype.setMaximum`. -/
def SliderConfig.setMaximum (s : SliderConfig) (q : ℚ) : SliderConfig :=
  { s with maximum := q }

/-- Hue slider construction (lines 202–206): unit increment 5, minimum 0,
maximum 359; setStep is not called. -/
def buildHueSlider : SliderConfig :=
  ((Slider.new.setUnitIncrement 5).setMinimum 0).setMaximum 359

/-- Saturation slider construction (lines 213–218): unit increment 0.01,
step 0.001, minimum 0.01, maximum 0.99. -/
def buildSaturationSlider : SliderConfig :=
  (((Slider.new.setUnitIncrement (1/100)).setStep (1/1000)).setMinimum
    (1/100)).setMaximum (99/100)

/-- Brightness slider construction (lines 224–228): unit increment 2,
minimum 5, maximum 255; setStep is not called. -/
def buildBrightnessSlider : SliderConfig :=
  ((Slider.new.setUnitIncrement 2).setMinimum 5).setMaximum 255

/-! ### goog.events listener registry and the editor session -/

/-- Listener registry of `goog.events`: a fresh key per `listen` call and the
list of currently active keys.  `Blockly.bindEventWithChecks_` handles are
modelled through the same registry. -/
structure GoogEvents where
  nextKey : Nat
  active : List Nat
deriving DecidableEq

/-- Register a listener: returns the updated registry and the new key. -/
def GoogEvents.listen (s : GoogEvents) : GoogEvents × Nat :=
  (⟨s.nextKey + 1, s.nextKey :: s.active⟩, s.nextKey)

/-- Embedding of `goog.events.unlistenByKey` (and `Blockly.unbindEvent_`):
removes the key from the active set; a no-op when the key is not active. -/
def GoogEvents.unlistenByKey (s : GoogEvents) (k : Nat) : GoogEvents :=
  { s with active := s.active.erase k }

/-- Class-level (static) state of `Blockly.FieldColour`:
`activateEyedropper` records whether the process-wide eyedropper hook is
installed; the four key slots are `Blockly.FieldColour.hueChangeEventKey_`,
`saturationChangeEventKey_`, `brightnessChangeEventKey_` and
`eyedropperEventData_`. -/
structure FieldColourClass where
  activateEyedropper : Bool
  hueChangeEventKey : Option Nat
  saturationChangeEventKey : Option Nat
  brightnessChangeEventKey : Option Nat
  eyedropperEventData : Option Nat
deriving DecidableEq

/-- Result of a successful `showEditor_` call. -/
structure EditorResult where
  field : FieldColour
  cls : FieldColourClass
  events : GoogEvents
  fired : List BlocklyEvent
  hueSlider : SliderConfig
  saturationSlider : SliderConfig
  brightnessSlider : SliderConfig

/-- Embedding of `Blockly.FieldColour.prototype.showEditor_` (lines
193–314).  DOM construction (`createLabelDom_`, `render`, the dropdown div)
is pure UI and not carried in the state; `animatedSetValue` starts a UI
animation towards the current HSV components and is likewise omitted.
Listener registration order follows the source: hue (line 236), saturation
(line 255), eyedropper when the hook is installed (line 279), brightness
(line 288); each key is stored in the class-level slot, the eyedropper slot
only when the hook is installed.  Line 306 dereferences
`this.sourceBlock_.parentBlock_.getCategory()`: with no source block or no
parent block the JS throws there and the panel is never shown, modelled as
`none`.  The call ends with `this.setValue(this.getValue())` (line 313). -/
def showEditor (eventsEnabled : Bool) (f : FieldColour)
    (cls : FieldColourClass) (es : GoogEvents) : Option EditorResult :=
  let hueSlider := buildHueSlider
  let saturationSlider := buildSaturationSlider
  let brightnessSlider := buildBrightnessSlider
  let r1 := es.listen
  let es1 := r1.1
  let hueKey := r1.2
  let r2 := es1.listen
  let es2 := r2.1
  let satKey := r2.2
  let r3 : GoogEvents × Option Nat :=
    if cls.activateEyedropper then
      let r := es2.listen
      (r.1, some r.2)
    else (es2, cls.eyedropperEventData)
  let es3 := r3.1
  let eyeData := r3.2
  let r4 := es3.listen
  let es4 := r4.1
  let brightKey := r4.2
  let cls1 : FieldColourClass :=
    { cls with hueChangeEventKey := some hueKey,
               saturationChangeEventKey := some satKey,
               brightnessChangeEventKey := some brightKey,
               eyedropperEventData := eyeData }
  match f.sourceBlock with
  | none => none
  | some b =>
    match b.parentCategory with
    | none => none
    | some _ =>
      let f1 : FieldColour := { f with editorOpen := true }
      let r5 := f1.setValue eventsEnabled f1.getValue
      some ⟨r5.1, cls1, es4, r5.2, hueSlider, saturationSlider,
        brightnessSlider⟩

/-- Embedding of `Blockly.FieldColour.widgetDispose_` (lines 320–334): each
class-level key that is set is unregistered, in source order hue,
saturation, brightness, eyedropper; the key slots themselves are not
cleared.  The final `Blockly.Events.setGroup(false)` touches only the undo
grouping flag and no listener state. -/
def widgetDispose (cls : FieldColourClass) (es : GoogEvents) :
    FieldColourClass × GoogEvents :=
  let es1 := match cls.hueChangeEventKey with
    | some k => es.unlistenByKey k
    | none => es
  let es2 := match cls.saturationChangeEventKey with
    | some k => es1.unlistenByKey k
    | none => es1
  let es3 := match cls.brightnessChangeEventKey with
    | some k => es2.unlistenByKey k
    | none => es2
  let es4 := match cls.eyedropperEventData with
    | some k => es3.unlistenByKey k
    | none => es3
  (cls, es4)

/-- Active-listener count observed after opening the editor and then
closing it: `none` when `showEditor` itself fails. -/
def openThenCloseActive (eventsEnabled : Bool) (f : FieldColour)
    (cls : FieldColourClass) (es : GoogEvents) : Option (List Nat) :=
  (showEditor eventsEnabled f cls es).map fun r =>
    (widgetDispose r.cls r.events).2.active

/-! ### Concrete fixtures -/

/-- Concrete host block used by witnesses and counterexamples. -/
def blockA : Block :=
  ⟨7, "#111111", "#222222", "#333333", some "motion"⟩

/-- Validator that always returns null (rejects every candidate). -/
def nullValidator : String → ValidatorResult :=
  fun _ => ValidatorResult.nullResult

/-- Red field attached to `blockA`, editor closed, no validator. -/
def fieldRed : FieldColour :=
  ⟨"#ff0000", "COLOUR", some blockA, none, false, ⟨0, 0, 0⟩⟩

/-- Red field attached to `blockA` with the editor elements present. -/
def fieldRedOpen : FieldColour :=
  { fieldRed with editorOpen := true }

/-- Red field attached to `blockA` with an always-null validator. -/
def fieldNullV : FieldColour :=
  { fieldRed with validator := some nullValidator }

/-- Field whose stored value is doubled non-hex characters. -/
def fieldGrey : FieldColour :=
  ⟨"#zzyyxx", "COLOUR", none, none, false, ⟨0, 0, 0⟩⟩

/-- Field whose stored value is `#ffffff`. -/
def fieldWhite : FieldColour :=
  ⟨"#ffffff", "COLOUR", none, none, false, ⟨0, 0, 0⟩⟩

/-! ### Helper lemmas about setValue -/

theorem refreshReadouts_colour (f : FieldColour) (c : String) :
    (refreshReadouts f c).colour = f.colour := by
  unfold refreshReadouts
  cases hexToHsv c <;> rfl

theorem refreshReadouts_sourceBlock (f : FieldColour) (c : String) :
    (refreshReadouts f c).sourceBlock = f.sourceBlock := by
  unfold refreshReadouts
  cases hexToHsv c <;> rfl

theorem setValue_fst_colour (e : Bool) (f : FieldColour) (c : String) :
    (f.setValue e c).1.colour = c := by
  unfold FieldColour.setValue
  cases h : f.sourceBlock <;>
    simp [h] <;> split <;> simp [refreshReadouts_colour]

theorem setValue_getValue (e : Bool) (f : FieldColour) (c : String) :
    (f.setValue e c).1.getValue = c :=
  setValue_fst_colour e f c

theorem setValue_snd (e : Bool) (f : FieldColour) (c : String) :
    (f.setValue e c).2 =
      match f.sourceBlock with
      | some b =>
        if e = true ∧ f.colour ≠ c then
          [BlocklyEvent.blockChange b.id "field" f.name f.colour c]
        else []
      | none => [] :=
  rfl

theorem setValue_fst_sourceBlock (e : Bool) (f : FieldColour) (c : String) :
    (f.setValue e c).1.sourceBlock =
      f.sourceBlock.map fun b => b.setColour c c b.getColourTertiary := by
  unfold FieldColour.setValue
  cases h : f.sourceBlock <;>
    simp [h] <;> split <;> simp [refreshReadouts_sourceBlock]

theorem setValue_readouts (e : Bool) (f : FieldColour) (c : String) (hsv : Hsv)
    (ho : f.editorOpen = true) (hp : hexToHsv c = some hsv) :
    (f.setValue e c).1.readouts =
      ⟨(100 * hsv.h / 360).floor, (100 * hsv.s).floor,
       (100 * hsv.v / 255).floor⟩ := by
  unfold FieldColour.setValue refreshReadouts
  cases h : f.sourceBlock <;> simp [h, ho, hp]

/-! ### Evaluation lemmas for concrete rational arithmetic -/

theorem rat_floor_eq_int_floor (q : ℚ) : q.floor = ⌊q⌋ := by
  rw [Rat.floor_def', Rat.floor_def]

theorem rat_floor_eval (q : ℚ) (n : ℤ) (h1 : (n : ℚ) ≤ q) (h2 : q < n + 1) :
    q.floor = n := by
  rw [rat_floor_eq_int_floor]
  rw [Int.floor_eq_iff]
  exact ⟨h1, by exact_mod_cast h2⟩

theorem hexToRgb_red : hexToRgb "#ff0000" = some (255, 0, 0) := by decide

theorem hexToHsv_red : hexToHsv "#ff0000" = some ⟨0, 1, 255⟩ := by
  unfold hexToHsv
  rw [hexToRgb_red]
  unfold rgbToHsv
  norm_num

theorem hsvToRgb_green : hsvToRgb 120 1 255 = (0, 255, 0) := by
  unfold hsvToRgb
  rw [if_neg (by norm_num : ¬(1 : ℚ) = 0)]
  rw [show ((120 : ℚ) / 60).floor = 2 from
    rat_floor_eval _ 2 (by norm_num) (by norm_num)]
  simp only [Prod.mk.injEq]
  norm_num
  exact ⟨rat_floor_eval _ 0 (by norm_num) (by norm_num),
    rat_floor_eval _ 255 (by norm_num) (by norm_num),
    rat_floor_eval _ 0 (by norm_num) (by norm_num)⟩

theorem hsvToHex_green : hsvToHex 120 1 255 = some "#00ff00" := by
  unfold hsvToHex
  rw [hsvToRgb_green]
  decide

theorem hsvToRgb_red : hsvToRgb 0 1 255 = (255, 0, 0) := by
  unfold hsvToRgb
  rw [if_neg (by norm_num : ¬(1 : ℚ) = 0)]
  rw [show ((0 : ℚ) / 60).floor = 0 from
    rat_floor_eval _ 0 (by norm_num) (by norm_num)]
  simp only [Prod.mk.injEq]
  norm_num
  exact ⟨rat_floor_eval _ 255 (by norm_num) (by norm_num),
    rat_floor_eval _ 0 (by norm_num) (by norm_num)⟩

theorem hsvToHex_red : hsvToHex 0 1 255 = some "#ff0000" := by
  unfold hsvToHex
  rw [hsvToRgb_red]
  decide

/-! ### Claims -/

/-- Claim C4: setValue emits exactly one structured change event, carrying
the owner block id, the element tag 'field', the field name, the old colour
and the new colour, precisely when the field is attached to a block, event
emission is globally enabled, and the new colour differs from the stored
colour; otherwise it emits no event, so calling setValue twice with the same
colour emits at most one event (the second call emits none). -/
theorem claim4 (enabled : Bool) (f : FieldColour) (c : String) :
    (∀ b, f.sourceBlock = some b → enabled = true → f.colour ≠ c →
      (f.setValue enabled c).2 =
        [BlocklyEvent.blockChange b.id "field" f.name f.colour c]) ∧
    (f.sourceBlock = none ∨ enabled = false ∨ f.colour = c →
      (f.setValue enabled c).2 = []) ∧
    ((f.setValue enabled c).1.setValue enabled c).2 = [] := by
  refine ⟨?_, ?_, ?_⟩
  · intro b hb he hne
    rw [setValue_snd, hb]
    simp [he, hne]
  · intro h
    rw [setValue_snd]
    rcases h with h | h | h
    · rw [h]
    · cases hb : f.sourceBlock <;> simp [h]
    · cases hb : f.sourceBlock <;> simp [h]
  · rw [setValue_snd, setValue_fst_colour]
    cases hb : (f.setValue enabled c).1.sourceBlock <;> simp

/-- Claim C4 witness: a red field attached to `blockA` set to green fires the
single structured event; setting green again fires nothing. -/
theorem claim4_witness :
    (fieldRed.setValue true "#00ff00").2 =
      [BlocklyEvent.blockChange 7 "field" "COLOUR" "#ff0000" "#00ff00"] ∧
    ((fieldRed.setValue true "#00ff00").1.setValue true "#00ff00").2 = [] :=
  ⟨(claim4 true fieldRed "#00ff00").1 blockA rfl rfl (by decide),
   (claim4 true fieldRed "#00ff00").2.2⟩

/-- Claim C5: for every string c, setValue(c) followed by getValue() returns
exactly c; setValue stores the string without any internal validation, so
this holds for malformed inputs as well. -/
theorem claim5 (enabled : Bool) (f : FieldColour) (c : String) :
    ((f.setValue enabled c).1).getValue = c :=
  setValue_getValue enabled f c

/-- Claim C10: init(block) never emits a change event, for either value of
the global event-emission flag: the setValue(getValue()) it performs passes
a colour equal to the stored colour, and setValue fires nothing when the new
colour equals the old one. -/
theorem claim10 (enabled : Bool) (f : FieldColour) (block : Block) :
    (f.init enabled block).2 = [] := by
  unfold FieldColour.init
  rw [setValue_snd]
  simp [FieldColour.getValue]

/-- Claim C9: showEditor constructs the hue slider with range [0,359] and
movement increment 5 (`setUnitIncrement(5)`; `setStep` is not called, so the
range-model step keeps its default 1), the saturation slider with range
[0.01,0.99], step 0.001 and unit increment 0.01, and the brightness slider
with range [5,255] and movement increment 2 (again no `setStep` call). -/
theorem claim9 :
    buildHueSlider =
      { unitIncrement := 5, step := 1, minimum := 0, maximum := 359 } ∧
    buildSaturationSlider =
      { unitIncrement := 1/100, step := 1/1000, minimum := 1/100,
        maximum := 99/100 } ∧
    buildBrightnessSlider =
      { unitIncrement := 2, step := 1, minimum := 5, maximum := 255 } := by
  refine ⟨rfl, ?_, rfl⟩
  unfold buildSaturationSlider Slider.new SliderConfig.setUnitIncrement
    SliderConfig.setStep SliderConfig.setMinimum SliderConfig.setMaximum
  norm_num

/-- Claim C2 counterexample: the claimed ×100/360 brightness scaling is not
what the code computes.  For a field holding #ff0000 (HSV brightness 255)
with the editor open, setValue leaves 100 in the brightness readout, whereas
the claimed scaling floor(100·255/360) gives 70 ≠ 100: the readout therefore
cannot be the ×100/360 quantity the claim asserts. -/
theorem claim2_counterexample :
    (fieldRedOpen.setValue true "#ff0000").1.readouts.brightness = 100 ∧
    (100 * (255 : ℚ) / 360).floor = 70 ∧ (100 : Int) ≠ 70 := by
  refine ⟨?_, rat_floor_eval _ 70 (by norm_num) (by norm_num), by decide⟩
  rw [setValue_readouts true fieldRedOpen "#ff0000" ⟨0, 1, 255⟩ rfl hexToHsv_red]
  exact rat_floor_eval _ 100 (by norm_num) (by norm_num)

/-- Claim C2 amended: whenever setValue runs while the editor elements are
present, the brightness readout shows the current colour HSV brightness
(0–255) scaled ×100/255 and floored — not ×100/360; in particular a field
holding #ff0000 (brightness 255) shows 100. -/
theorem claim2 (enabled : Bool) (f : FieldColour) (c : String) (hsv : Hsv)
    (ho : f.editorOpen = true) (hp : hexToHsv c = some hsv) :
    (f.setValue enabled c).1.readouts.brightness = (100 * hsv.v / 255).floor := by
  rw [setValue_readouts enabled f c hsv ho hp]

/-- Claim C2 witness: the amended scaling evaluated on #ff0000 shows 100. -/
theorem claim2_witness :
    (fieldRedOpen.setValue true "#ff0000").1.readouts.brightness =
      (100 * (255 : ℚ) / 255).floor :=
  claim2 true fieldRedOpen "#ff0000" ⟨0, 1, 255⟩ rfl hexToHsv_red

/-- Claim C7 counterexample: setValue on an attached field does not push the
new colour into the tertiary slot.  With `blockA` (tertiary #333333), setting
#00ff00 leaves the tertiary slot at #333333 ≠ #00ff00. -/
theorem claim7_counterexample :
    ((fieldRed.setValue true "#00ff00").1.sourceBlock.map
      Block.colourTertiary) = some "#333333" ∧
    ("#333333" : String) ≠ "#00ff00" := by
  constructor
  · rw [setValue_fst_sourceBlock]
    rfl
  · decide

/-- Claim C7 amended: when the field is attached to a block, every setValue
call pushes the colour into the primary and secondary colour slots, while
the tertiary slot is re-set to its existing value, i.e. left unchanged
(the source passes `getColourTertiary()` back as the third argument). -/
theorem claim7 (enabled : Bool) (f : FieldColour) (b : Block) (c : String)
    (hb : f.sourceBlock = some b) :
    (f.setValue enabled c).1.sourceBlock.map Block.colourPrimary = some c ∧
    (f.setValue enabled c).1.sourceBlock.map Block.colourSecondary = some c ∧
    (f.setValue enabled c).1.sourceBlock.map Block.colourTertiary =
      some b.colourTertiary := by
  rw [setValue_fst_sourceBlock, hb]
  exact ⟨rfl, rfl, rfl⟩

/-- Claim C7 witness: concrete evaluation on `fieldRed` and `blockA`. -/
theorem claim7_witness :
    (fieldRed.setValue true "#00ff00").1.sourceBlock.map Block.colourPrimary =
      some "#00ff00" ∧
    (fieldRed.setValue true "#00ff00").1.sourceBlock.map Block.colourSecondary =
      some "#00ff00" ∧
    (fieldRed.setValue true "#00ff00").1.sourceBlock.map Block.colourTertiary =
      some "#333333" :=
  claim7 true fieldRed blockA "#00ff00" rfl

/-- The editor cannot open on a detached field: showEditor dereferences
`this.sourceBlock_.parentBlock_` before the panel is shown, so every slider
change event presupposes an attached field.  This justifies the attachment
hypothesis of the slider-interaction claims. -/
theorem showEditor_requires_attachment (enabled : Bool) (f : FieldColour)
    (cls : FieldColourClass) (es : GoogEvents) (h : f.sourceBlock = none) :
    showEditor enabled f cls es = none := by
  unfold showEditor
  rw [h]

/-- Claim C3: with an always-null validator installed on an attached field,
no slider change event ever alters the stored colour: for each of the three
handlers, getValue after the handler equals getValue before. -/
theorem claim3 (enabled : Bool) (f : FieldColour) (b : Block)
    (vfn : String → ValidatorResult) (q : ℚ)
    (hb : f.sourceBlock = some b) (hv : f.validator = some vfn)
    (hnull : ∀ s, vfn s = ValidatorResult.nullResult) :
    (hueChangeHandler enabled f q).1.getValue = f.getValue ∧
    (saturationChangeHandler enabled f q).1.getValue = f.getValue ∧
    (brightnessChangeHandler enabled f q).1.getValue = f.getValue := by
  refine ⟨?_, ?_, ?_⟩
  · cases hp : hexToHsv f.getValue with
    | none => simp [hueChangeHandler, hp]
    | some hsv =>
      cases hc : hsvToHex q hsv.s hsv.v with
      | none => simp [hueChangeHandler, hp, hc]
      | some cand =>
        simp [hueChangeHandler, hp, hc, hb, FieldColour.callValidator, hv,
          hnull cand]
  · cases hp : hexToHsv f.getValue with
    | none => simp [saturationChangeHandler, hp]
    | some hsv =>
      cases hc : hsvToHex hsv.h q hsv.v with
      | none => simp [saturationChangeHandler, hp, hc]
      | some cand =>
        simp [saturationChangeHandler, hp, hc, hb, FieldColour.callValidator,
          hv, hnull cand]
  · cases hp : hexToHsv f.getValue with
    | none => simp [brightnessChangeHandler, hp]
    | some hsv =>
      cases hc : hsvToHex hsv.h hsv.s q with
      | none => simp [brightnessChangeHandler, hp, hc]
      | some cand =>
        simp [brightnessChangeHandler, hp, hc, hb, FieldColour.callValidator,
          hv, hnull cand]

/-- Claim C3 witness: the always-null validator on the attached red field
leaves the colour untouched for a concrete slider value. -/
theorem claim3_witness :
    (hueChangeHandler true fieldNullV 120).1.getValue = fieldNullV.getValue ∧
    (saturationChangeHandler true fieldNullV 120).1.getValue =
      fieldNullV.getValue ∧
    (brightnessChangeHandler true fieldNullV 120).1.getValue =
      fieldNullV.getValue :=
  claim3 true fieldNullV blockA nullValidator 120 rfl rfl (fun _ => rfl)

/-- Claim C1 counterexample: an eyedropper pick does not consult the
validator.  On the attached field carrying an always-null validator, a pick
of #123456 commits anyway, so the "null aborts the change" part of the claim
fails for the eyedropper path. -/
theorem claim1_counterexample :
    fieldNullV.validator = some nullValidator ∧
    (activateEyedropperInternal true fieldNullV "#123456").1.getValue =
      "#123456" ∧
    fieldNullV.getValue = "#ff0000" := by
  refine ⟨rfl, ?_, rfl⟩
  exact setValue_getValue true fieldNullV "#123456"

/-- Claim C1 amended: slider change events on an attached field do consult
the validator — a null result aborts with the stored colour unchanged, an
undefined result commits the candidate, and a replacement string commits the
replacement — but an eyedropper pick bypasses the validator entirely and
commits its value directly through setValue. -/
theorem claim1 (enabled : Bool) (f : FieldColour) (b : Block)
    (vfn : String → ValidatorResult) (qH qS qB : ℚ) (hsv : Hsv)
    (candH candS candB pick : String)
    (hb : f.sourceBlock = some b) (hv : f.validator = some vfn)
    (hp : hexToHsv f.getValue = some hsv)
    (hcH : hsvToHex qH hsv.s hsv.v = some candH)
    (hcS : hsvToHex hsv.h qS hsv.v = some candS)
    (hcB : hsvToHex hsv.h hsv.s qB = some candB) :
    ((vfn candH = ValidatorResult.nullResult →
        (hueChangeHandler enabled f qH).1.getValue = f.getValue) ∧
     (vfn candH = ValidatorResult.undefinedResult →
        (hueChangeHandler enabled f qH).1.getValue = candH) ∧
     (∀ c2, vfn candH = ValidatorResult.colourResult c2 →
        (hueChangeHandler enabled f qH).1.getValue = c2)) ∧
    ((vfn candS = ValidatorResult.nullResult →
        (saturationChangeHandler enabled f qS).1.getValue = f.getValue) ∧
     (vfn candS = ValidatorResult.undefinedResult →
        (saturationChangeHandler enabled f qS).1.getValue = candS) ∧
     (∀ c2, vfn candS = ValidatorResult.colourResult c2 →
        (saturationChangeHandler enabled f qS).1.getValue = c2)) ∧
    ((vfn candB = ValidatorResult.nullResult →
        (brightnessChangeHandler enabled f qB).1.getValue = f.getValue) ∧
     (vfn candB = ValidatorResult.undefinedResult →
        (brightnessChangeHandler enabled f qB).1.getValue = candB) ∧
     (∀ c2, vfn candB = ValidatorResult.colourResult c2 →
        (brightnessChangeHandler enabled f qB).1.getValue = c2)) ∧
    (activateEyedropperInternal enabled f pick).1.getValue = pick := by
  refine ⟨⟨?_, ?_, ?_⟩, ⟨?_, ?_, ?_⟩, ⟨?_, ?_, ?_⟩,
    setValue_getValue enabled f pick⟩
  · intro hres
    simp [hueChangeHandler, hp, hcH, hb, FieldColour.callValidator, hv, hres]
  · intro hres
    simp [hueChangeHandler, hp, hcH, hb, FieldColour.callValidator, hv, hres,
      setValue_getValue]
  · intro c2 hres
    simp [hueChangeHandler, hp, hcH, hb, FieldColour.callValidator, hv, hres,
      setValue_getValue]
  · intro hres
    simp [saturationChangeHandler, hp, hcS, hb, FieldColour.callValidator,
      hv, hres]
  · intro hres
    simp [saturationChangeHandler, hp, hcS, hb, FieldColour.callValidator,
      hv, hres, setValue_getValue]
  · intro c2 hres
    simp [saturationChangeHandler, hp, hcS, hb, FieldColour.callValidator,
      hv, hres, setValue_getValue]
  · intro hres
    simp [brightnessChangeHandler, hp, hcB, hb, FieldColour.callValidator,
      hv, hres]
  · intro hres
    simp [brightnessChangeHandler, hp, hcB, hb, FieldColour.callValidator,
      hv, hres, setValue_getValue]
  · intro c2 hres
    simp [brightnessChangeHandler, hp, hcB, hb, FieldColour.callValidator,
      hv, hres, setValue_getValue]

/-- Claim C1 witness: the amended statement instantiated on the attached red
field with the always-null validator, slider values 120 (hue), 1
(saturation), 255 (brightness) and eyedropper pick #123456. -/
theorem claim1_witness :
    ((nullValidator "#00ff00" = ValidatorResult.nullResult →
        (hueChangeHandler true fieldNullV 120).1.getValue =
          fieldNullV.getValue) ∧
     (nullValidator "#00ff00" = ValidatorResult.undefinedResult →
        (hueChangeHandler true fieldNullV 120).1.getValue = "#00ff00") ∧
     (∀ c2, nullValidator "#00ff00" = ValidatorResult.colourResult c2 →
        (hueChangeHandler true fieldNullV 120).1.getValue = c2)) ∧
    ((nullValidator "#ff0000" = ValidatorResult.nullResult →
        (saturationChangeHandler true fieldNullV 1).1.getValue =
          fieldNullV.getValue) ∧
     (nullValidator "#ff0000" = ValidatorResult.undefinedResult →
        (saturationChangeHandler true fieldNullV 1).1.getValue = "#ff0000") ∧
     (∀ c2, nullValidator "#ff0000" = ValidatorResult.colourResult c2 →
        (saturationChangeHandler true fieldNullV 1).1.getValue = c2)) ∧
    ((nullValidator "#ff0000" = ValidatorResult.nullResult →
        (brightnessChangeHandler true fieldNullV 255).1.getValue =
          fieldNullV.getValue) ∧
     (nullValidator "#ff0000" = ValidatorResult.undefinedResult →
        (brightnessChangeHandler true fieldNullV 255).1.getValue =
          "#ff0000") ∧
     (∀ c2, nullValidator "#ff0000" = ValidatorResult.colourResult c2 →
        (brightnessChangeHandler true fieldNullV 255).1.getValue = c2)) ∧
    (activateEyedropperInternal true fieldNullV "#123456").1.getValue =
      "#123456" :=
  claim1 true fieldNullV blockA nullValidator 120 1 255 ⟨0, 1, 255⟩
    "#00ff00" "#ff0000" "#ff0000" "#123456" rfl rfl hexToHsv_red
    hsvToHex_green hsvToHex_red hsvToHex_red

/-- The claim's notion of a compactible colour: a 6-hex-digit value whose
channel digit pairs match. -/
def isDoubledHexColour (s : String) : Bool :=
  match s.data with
  | [h0, a, a2, b, b2, c, c2] =>
    h0 == '#' && (hexDigitVal a).isSome && (hexDigitVal b).isSome &&
    (hexDigitVal c).isSome && a == a2 && b == b2 && c == c2
  | _ => false

/-- Claim C6 counterexample: the compaction regex tests any doubled
characters, not only hex digits.  The stored value #zzyyxx is not a doubled
hex colour, yet getText compacts it to #zyx instead of returning it
unchanged, refuting the "every other stored value is returned unchanged"
half of the claim. -/
theorem claim6_counterexample :
    isDoubledHexColour fieldGrey.colour = false ∧
    fieldGrey.getText = "#zyx" ∧
    fieldGrey.getText ≠ fieldGrey.colour := by
  refine ⟨by decide, by decide, by decide⟩

/-- Claim C6 amended: getText compacts every stored 7-character value of the
form '#' followed by three doubled characters, hex digit or not, provided
none of the doubled characters is a line terminator (the regex dot); every
stored value not of that form is returned unchanged. -/
theorem claim6 (f : FieldColour) :
    (∀ a b c, regexDotMatches a → regexDotMatches b → regexDotMatches c →
      f.colour = String.mk ['#', a, a, b, b, c, c] →
      f.getText = String.mk ['#', a, b, c]) ∧
    ((∀ a b c, regexDotMatches a → regexDotMatches b → regexDotMatches c →
      f.colour ≠ String.mk ['#', a, a, b, b, c, c]) →
      f.getText = f.colour) := by
  constructor
  · intro a b c ha hb2 hc2 hcol
    unfold FieldColour.getText
    rw [hcol]
    simp [ha, hb2, hc2]
  · intro hne
    unfold FieldColour.getText
    split
    · next h0 a a2 b b2 c c2 heq =>
      split
      · next hcond =>
        obtain ⟨hh, haa, hbb, hcc, ha, hb2, hc2⟩ := hcond
        exfalso
        apply hne a b c ha hb2 hc2
        have he : f.colour = String.mk [h0, a, a2, b, b2, c, c2] :=
          congrArg String.mk heq
        rw [he, hh, ← haa, ← hbb, ← hcc]
      · rfl
    · rfl

/-- Claim C6 witness: the amended compaction evaluated on #ffffff. -/
theorem claim6_witness :
    fieldWhite.getText = String.mk ['#', 'f', 'f', 'f'] :=
  (claim6 fieldWhite).1 'f' 'f' 'f' (by decide) (by decide) (by decide) rfl

theorem erase_chain_three (n : Nat) :
    ((([n+1+1, n+1, n] : List Nat).erase n).erase (n+1)).erase (n+1+1) = [] := by
  have h1 : ([n+1+1, n+1, n] : List Nat).erase n = [n+1+1, n+1] := by
    rw [List.erase_cons_tail (by simp only [beq_iff_eq]; omega),
        List.erase_cons_tail (by simp only [beq_iff_eq]; omega),
        List.erase_cons_head]
  have h2 : ([n+1+1, n+1] : List Nat).erase (n+1) = [n+1+1] := by
    rw [List.erase_cons_tail (by simp only [beq_iff_eq]; omega),
        List.erase_cons_head]
  rw [h1, h2, List.erase_cons_head]

theorem erase_chain_four (n : Nat) :
    (((([n+1+1+1, n+1+1, n+1, n] : List Nat).erase n).erase
      (n+1)).erase (n+1+1+1)).erase (n+1+1) = [] := by
  have h1 : ([n+1+1+1, n+1+1, n+1, n] : List Nat).erase n =
      [n+1+1+1, n+1+1, n+1] := by
    rw [List.erase_cons_tail (by simp only [beq_iff_eq]; omega),
        List.erase_cons_tail (by simp only [beq_iff_eq]; omega),
        List.erase_cons_tail (by simp only [beq_iff_eq]; omega),
        List.erase_cons_head]
  have h2 : ([n+1+1+1, n+1+1, n+1] : List Nat).erase (n+1) =
      [n+1+1+1, n+1+1] := by
    rw [List.erase_cons_tail (by simp only [beq_iff_eq]; omega),
        List.erase_cons_tail (by simp only [beq_iff_eq]; omega),
        List.erase_cons_head]
  have h3 : ([n+1+1+1, n+1+1] : List Nat).erase (n+1+1+1) = [n+1+1] :=
    List.erase_cons_head _ _
  rw [h1, h2, h3, List.erase_cons_head]

/-- Claim C8: opening the editor panel and then closing it leaves zero
active listeners.  Starting from a registry with no active listeners,
showEditor registers the three slider change listeners (plus the eyedropper
click listener when the hook is installed) and widgetDispose unregisters
every key that was stored, so the active set returns to empty — for either
state of the eyedropper hook and any stale class-level key slots. -/
theorem claim8 (enabled : Bool) (f : FieldColour) (b : Block) (cat : String)
    (cls : FieldColourClass) (es : GoogEvents)
    (hb : f.sourceBlock = some b) (hcat : b.parentCategory = some cat)
    (hes : es.active = []) :
    openThenCloseActive enabled f cls es = some [] := by
  obtain ⟨n, act⟩ := es
  simp only at hes
  subst hes
  cases hflag : cls.activateEyedropper
  · unfold openThenCloseActive showEditor widgetDispose
    simp only [hb, hcat, hflag, GoogEvents.listen, GoogEvents.unlistenByKey,
      if_false, Bool.false_eq_true, if_neg, Option.map_some']
    cases hed : cls.eyedropperEventData with
    | none => exact congrArg some (erase_chain_three n)
    | some k =>
      refine congrArg some ?_
      show ((([n+1+1, n+1, n].erase n).erase (n+1)).erase (n+1+1)).erase k = []
      rw [erase_chain_three n]
      rfl
  · unfold openThenCloseActive showEditor widgetDispose
    simp only [hb, hcat, hflag, GoogEvents.listen, GoogEvents.unlistenByKey,
      if_true, Option.map_some']
    exact congrArg some (erase_chain_four n)

/-- Claim C8 witness: a concrete open/close cycle with the eyedropper hook
installed returns the registry to zero active listeners. -/
theorem claim8_witness :
    openThenCloseActive true fieldRed
      ⟨true, none, none, none, none⟩ ⟨0, []⟩ = some [] :=
  claim8 true fieldRed blockA "motion" ⟨true, none, none, none, none⟩
    ⟨0, []⟩ rfl rfl rfl

end ScratchBlocks
